import Mathlib

/-!
Verification of the diversion-session layer of the macdivert package
(src/macdivert/macdivert.py), as a shallow embedding.

The embedding models the `DivertHandle` session object as an explicit state
record, the thread-safe `Queue.Queue` as a FIFO `List Packet`, and the native
capture engine as an oracle: engine calls made by a session method are recorded
in an event trace, and engine-reported results (reinject byte counts, rule
compilation outcomes, header-reported lengths delivered to the capture
callback) are oracle inputs.  Python's dynamically typed `Packet` attributes
are modelled by the small dynamic-value type `PyVal`, with Python truthiness
made explicit.
-/

namespace MacDivert

/-- Process information for the owning process of a packet, as the engine hands
it to the capture callback (`ProcInfo` in models.py); `-1` in both fields is
the engine's sentinel for "no owning process resolved". -/
structure ProcInfo where
  pid : Int
  epid : Int
deriving DecidableEq

/-- Dynamic Python value stored in a `Packet` attribute: `None`, a byte string,
a copied `ProcInfo`, or an int (the default of the `flag` field). -/
inductive PyVal where
  | none : PyVal
  | bytes : List Nat → PyVal
  | proc : ProcInfo → PyVal
  | int : Int → PyVal
deriving DecidableEq

/-- Python truthiness of a `PyVal`: `None` and empty byte strings and `0` are
falsy, everything else is truthy (used by `write`'s `not packet_obj.sockaddr or
not packet_obj.ip_data` check). -/
def PyVal.truthy : PyVal → Bool
  | PyVal.none => false
  | PyVal.bytes bs => !bs.isEmpty
  | PyVal.proc _ => true
  | PyVal.int n => n != 0

/-- The `Packet` value type (macdivert.py lines 381-387): field defaults are
those assigned in `Packet.__init__`. -/
structure Packet where
  proc : PyVal := PyVal.none
  ip_data : PyVal := PyVal.none
  sockaddr : PyVal := PyVal.none
  valid : Bool := false
  flag : PyVal := PyVal.int 0
deriving DecidableEq

/-- Modelled from the spec: `Defaults.SOCKET_ADDR_SIZE`, the fixed size of the
opaque socket-address token.  The `enum` module defining `Defaults` is not part
of the sources; the spec only states the token is fixed-size, so a concrete
size is chosen here (none of the claims depends on the value). -/
def Defaults.SOCKET_ADDR_SIZE : Nat := 16

/-- Modelled from the spec: `Defaults.IPFW_RULE_SIZE`, the fixed size of a
compiled rule blob.  The `enum` module defining `Defaults` is not part of the
sources; the claims only use the size symbolically. -/
def Defaults.IPFW_RULE_SIZE : Nat := 124

/-- Reading `n` bytes starting at a raw engine buffer pointer (ctypes slicing
`buf[0:n]` on a `POINTER(c_char)`): memory is modelled as a total function
from offsets to bytes, so the slice always has exactly `n` bytes, like the
unchecked pointer read in ctypes. -/
def sliceBuf (buf : Nat → Nat) (n : Nat) : List Nat :=
  (List.range n).map buf

/-- The background capture thread, reduced to the one observable the session
code uses: `isAlive()`. -/
structure PyThread where
  alive : Bool
deriving DecidableEq

/-- Mutable state of a `DivertHandle` session: the packet queue, the
pending-reader counter `num_queued`, the optional background thread, and the
one-shot `_cleaned` flag used by `__del__`. -/
structure SessionState where
  packet_queue : List Packet
  num_queued : Nat
  thread : Option PyThread
  cleaned : Bool
deriving DecidableEq

/-- Observable actions a session method performs: queue insertions of shutdown
sentinels, and the engine / thread calls `divert_loop_stop`, `Thread.join`,
`divert_close` and `divert_reinject`. -/
inductive Event where
  | put_sentinel : Event
  | loop_stop : Event
  | thread_join : Event
  | divert_close : Event
  | divert_reinject : PyVal → PyVal → Event
deriving DecidableEq

/-- One invocation of the capture callback, as the engine delivers it:
the process info record, the two header-reported lengths (obtained in the
source through `IpHeader.get_header_length` / `get_total_length`, consumed
here as oracle values), and the raw `ip_data` and `sockaddr` buffers. -/
structure Delivery where
  proc_info : ProcInfo
  header_len : Int
  packet_length : Int
  ip_data : Nat → Nat
  sockaddr : Nat → Nat

/-- The capture callback `ip_callback` (macdivert.py lines 190-205): when both
header-reported lengths are positive it builds a `Packet` with `valid = True`,
copies the process info unless both pid and epid are the `-1` sentinel, copies
exactly `packet_length` bytes of packet data and `SOCKET_ADDR_SIZE` bytes of
address token, and appends the packet to the queue; otherwise it enqueues
nothing. -/
def ip_callback (s : SessionState) (d : Delivery) : SessionState :=
  if d.packet_length > 0 ∧ d.header_len > 0 then
    let p0 : Packet := { valid := true }
    let p1 := if d.proc_info.pid ≠ -1 ∨ d.proc_info.epid ≠ -1
      then { p0 with proc := PyVal.proc d.proc_info } else p0
    let p2 := { p1 with
      ip_data := PyVal.bytes (sliceBuf d.ip_data d.packet_length.toNat),
      sockaddr := PyVal.bytes (sliceBuf d.sockaddr Defaults.SOCKET_ADDR_SIZE) }
    { s with packet_queue := s.packet_queue ++ [p2] }
  else s

/-- A sequence of callback invocations in engine arrival order. -/
def deliverAll (s : SessionState) (ds : List Delivery) : SessionState :=
  ds.foldl ip_callback s

/-- `DivertHandle.read` (macdivert.py lines 288-292): increment `num_queued`,
dequeue, decrement.  A `Queue.get` that raises (empty queue under a
non-blocking or expired-timeout policy) is modelled by the `Option.none`
result; the exception propagates before the decrement runs, so the
incremented counter is returned in that case. -/
def read (s : SessionState) : Option Packet × SessionState :=
  let s1 : SessionState := { s with num_queued := s.num_queued + 1 }
  match s1.packet_queue with
  | [] => (Option.none, s1)
  | p :: rest =>
    (some p, { s1 with packet_queue := rest, num_queued := s1.num_queued - 1 })

/-- `n` consecutive successful-or-failing `read` calls; a failing read ends
the sequence (the caller got an exception). -/
def readN : Nat → SessionState → List Packet × SessionState
  | 0, s => ([], s)
  | Nat.succ n, s =>
    match read s with
    | (Option.none, s1) => ([], s1)
    | (some p, s1) =>
      let r := readN n s1
      (p :: r.fst, r.snd)

/-- `DivertHandle.eof` (macdivert.py lines 234-239): queue currently empty. -/
def eof (s : SessionState) : Bool := s.packet_queue.isEmpty

/-- The `DivertHandle.closed` property (macdivert.py lines 241-249): it first
forgets a thread that is no longer alive, then reports `thread is None and
self.eof`.  The property mutates `self.thread`, so the updated state is
returned alongside the boolean. -/
def closedCheck (s : SessionState) : Bool × SessionState :=
  let s1 : SessionState :=
    match s.thread with
    | some t => if !t.alive then { s with thread := Option.none } else s
    | Option.none => s
  (s1.thread.isNone && eof s1, s1)

/-- `DivertHandle.close` (macdivert.py lines 251-261): push `num_queued`
sentinel `valid = False` packets, then, if a thread is present, request
`divert_loop_stop` when it is still alive, join it and forget it.  Returns the
new state and the trace of actions performed, in order. -/
def close (s : SessionState) : SessionState × List Event :=
  let sentinel : Packet := { valid := false }
  let s1 : SessionState :=
    { s with packet_queue :=
        s.packet_queue ++ List.replicate s.num_queued sentinel }
  let evs := List.replicate s.num_queued Event.put_sentinel
  match s1.thread with
  | Option.none => (s1, evs)
  | some t =>
    ({ s1 with thread := Option.none },
      evs ++ (if t.alive then [Event.loop_stop] else []) ++ [Event.thread_join])

/-- `DivertHandle.__del__` (macdivert.py lines 216-222): run `close()`, then,
guarded by the one-shot `_cleaned` flag, release the engine handle with
`divert_close`. -/
def del_method (s : SessionState) : SessionState × List Event :=
  let r := close s
  if !r.fst.cleaned then
    ({ r.fst with cleaned := true }, r.snd ++ [Event.divert_close])
  else r

/-- `DivertHandle.write` (macdivert.py lines 294-302): raise
`RuntimeError("Divert handle closed.")` when the `closed` property is true;
raise `RuntimeError("Invalid packet data.")` when the packet is `None` or its
`sockaddr` or `ip_data` attribute is falsy; otherwise call `divert_reinject`
on the payload and address token and return the engine-reported byte count.
The engine's reinject operation is the oracle `reinject`; an engine call
happens exactly when the result is `ok` and is recorded in the trace. -/
def write (reinject : PyVal → PyVal → Int) (s : SessionState)
    (packet_obj : Option Packet) :
    Except String (Int × SessionState × List Event) :=
  let c := closedCheck s
  if c.fst then Except.error "Divert handle closed."
  else
    match packet_obj with
    | Option.none => Except.error "Invalid packet data."
    | some p =>
      if !p.sockaddr.truthy || !p.ip_data.truthy then
        Except.error "Invalid packet data."
      else
        Except.ok (reinject p.ip_data p.sockaddr, c.snd,
          [Event.divert_reinject p.ip_data p.sockaddr])

/-- Outcome of one call to the engine's `ipfw_compile_rule`: the status code,
the contents of the caller-provided `rule_data` buffer after the call, and the
diagnostic text left in the caller-provided `errmsg` buffer. -/
structure CompileOutcome where
  status : Int
  rule_data : Nat → Nat
  errmsg : String

/-- Number of parameter types the `divert_argtypes` table declares for the
engine's `ipfw_compile_rule` (macdivert.py line 46:
`[c_char_p, c_ushort, c_ushort, c_char_p, c_char_p]`), installed on the
function object by `_load_lib`. -/
def ipfw_compile_rule_argtypes_len : Nat := 5

/-- Number of arguments the call site actually passes to the engine's
`ipfw_compile_rule` (macdivert.py line 227: `rule_data, port, rule_str,
errmsg`). -/
def ipfw_compile_rule_call_arity : Nat := 4

/-- `DivertHandle.ipfw_compile_rule` (macdivert.py lines 224-229), including
the ctypes call boundary: `_load_lib` installs the five-entry argument-type
list declared at line 46 on the function object, and ctypes raises
`TypeError` whenever a call supplies fewer arguments than the declared
argument types — before the foreign function runs.  The call at line 227
passes four arguments, so the boundary check fails first; the source's
diagnostic path (`RuntimeError("Error rule: %s" % errmsg.value)` on nonzero
status) and blob return (`rule_data[0:IPFW_RULE_SIZE]`) follow the boundary
check, as in the source, with the engine call kept as the oracle `engine`. -/
def ipfw_compile_rule (engine : String → Nat → CompileOutcome)
    (rule_str : String) (port : Nat) : Except String (List Nat) :=
  if ipfw_compile_rule_call_arity < ipfw_compile_rule_argtypes_len then
    Except.error "TypeError: this function takes at least 5 arguments (4 given)"
  else
    let out := engine rule_str port
    if out.status ≠ 0 then Except.error ("Error rule: " ++ out.errmsg)
    else Except.ok (sliceBuf out.rule_data Defaults.IPFW_RULE_SIZE)

/-- `Packet.__setitem__` (macdivert.py lines 389-399): the four known keys
update the corresponding attribute; any other key raises
`KeyError("No suck key: ...")` (message as in the source). -/
def Packet.setitem (p : Packet) (key : String) (value : PyVal) :
    Except String Packet :=
  if key = "proc" then Except.ok { p with proc := value }
  else if key = "ip_data" then Except.ok { p with ip_data := value }
  else if key = "sockaddr" then Except.ok { p with sockaddr := value }
  else if key = "flag" then Except.ok { p with flag := value }
  else Except.error ("No suck key: " ++ key)

/-- `Packet.__getitem__` (macdivert.py lines 401-411): the four known keys
return the corresponding attribute; any other key silently returns `None`. -/
def Packet.getitem (p : Packet) (item : String) : PyVal :=
  if item = "proc" then p.proc
  else if item = "ip_data" then p.ip_data
  else if item = "sockaddr" then p.sockaddr
  else if item = "flag" then p.flag
  else PyVal.none

/-- The packet that `ip_callback` enqueues for a delivery that passes the
positive-length check (used to state the callback claims). -/
def callbackPacket (d : Delivery) : Packet :=
  { valid := true,
    proc := if d.proc_info.pid ≠ -1 ∨ d.proc_info.epid ≠ -1
      then PyVal.proc d.proc_info else PyVal.none,
    ip_data := PyVal.bytes (sliceBuf d.ip_data d.packet_length.toNat),
    sockaddr := PyVal.bytes (sliceBuf d.sockaddr Defaults.SOCKET_ADDR_SIZE),
    flag := PyVal.int 0 }

/-- On a delivery passing the positive-length check, `ip_callback` appends
exactly `callbackPacket d` to the queue and changes nothing else. -/
lemma ip_callback_valid (s : SessionState) (d : Delivery)
    (h1 : d.packet_length > 0) (h2 : d.header_len > 0) :
    ip_callback s d
      = { s with packet_queue := s.packet_queue ++ [callbackPacket d] } := by
  unfold ip_callback callbackPacket
  rw [if_pos ⟨h1, h2⟩]
  by_cases hp : d.proc_info.pid ≠ -1 ∨ d.proc_info.epid ≠ -1
  · simp only [if_pos hp]
  · simp only [if_neg hp]

/-- Delivering a list of valid packets appends the corresponding
`callbackPacket`s to the queue, in arrival order. -/
lemma deliverAll_queue (ds : List Delivery) (s : SessionState)
    (hpos : ∀ d ∈ ds, d.packet_length > 0 ∧ d.header_len > 0) :
    deliverAll s ds
      = { s with packet_queue := s.packet_queue ++ ds.map callbackPacket } := by
  induction ds generalizing s with
  | nil => simp [deliverAll]
  | cons d ds ih =>
    have hd := hpos d (List.mem_cons_self d ds)
    have hrest : ∀ x ∈ ds, x.packet_length > 0 ∧ x.header_len > 0 :=
      fun x hx => hpos x (List.mem_cons_of_mem d hx)
    show deliverAll (ip_callback s d) ds = _
    rw [ip_callback_valid s d hd.1 hd.2, ih _ hrest]
    simp [List.append_assoc]

/-- Reading as many times as there are packets at the front of the queue
dequeues them in order and preserves the pending-reader counter. -/
lemma readN_append (ps : List Packet) (rest : List Packet) (s : SessionState)
    (hq : s.packet_queue = ps ++ rest) :
    readN ps.length s = (ps, { s with packet_queue := rest }) := by
  induction ps generalizing s with
  | nil =>
    simp at hq
    simp [readN, ← hq]
  | cons p ps ih =>
    have hread : read s
        = (some p, { s with packet_queue := ps ++ rest }) := by
      simp [read, hq]
    show (match read s with
      | (Option.none, s1) => ([], s1)
      | (some q, s1) =>
        let r := readN ps.length s1
        (q :: r.fst, r.snd)) = _
    rw [hread]
    simp [ih { s with packet_queue := ps ++ rest } rfl]

/-- C1: every sequence of `N` packets delivered by the capture callback with
both header-reported lengths positive is returned by `N` subsequent `read()`
calls with the delivered payloads, in callback-invocation (FIFO) order, and
every returned packet has `valid = true`. -/
theorem read_fifo_payloads (s : SessionState) (ds : List Delivery)
    (hq : s.packet_queue = [])
    (hpos : ∀ d ∈ ds, d.packet_length > 0 ∧ d.header_len > 0) :
    (readN ds.length (deliverAll s ds)).fst.map Packet.ip_data
        = ds.map (fun d => PyVal.bytes (sliceBuf d.ip_data d.packet_length.toNat))
    ∧ ∀ p ∈ (readN ds.length (deliverAll s ds)).fst, p.valid = true := by
  have h1 := deliverAll_queue ds s hpos
  have h2 : (deliverAll s ds).packet_queue = ds.map callbackPacket ++ [] := by
    rw [h1]
    simp [hq]
  have h3 := readN_append (ds.map callbackPacket) [] (deliverAll s ds) h2
  rw [List.length_map] at h3
  rw [h3]
  constructor
  · simp [callbackPacket]
  · intro p hp
    simp only [List.mem_map] at hp
    obtain ⟨d, hd, hpd⟩ := hp
    rw [← hpd]
    rfl

/-- Concrete instantiation of `read_fifo_payloads`: two deliveries, payloads
read back in order and both valid. -/
theorem read_fifo_payloads_witness :
    ((readN
        ([⟨⟨3, 4⟩, 1, 2, fun i => i + 1, fun _ => 0⟩,
          ⟨⟨-1, -1⟩, 5, 3, fun i => 7 * i, fun _ => 9⟩] : List Delivery).length
        (deliverAll ⟨[], 0, Option.none, false⟩
          [⟨⟨3, 4⟩, 1, 2, fun i => i + 1, fun _ => 0⟩,
           ⟨⟨-1, -1⟩, 5, 3, fun i => 7 * i, fun _ => 9⟩])).fst.map Packet.ip_data
        = [PyVal.bytes [1, 2], PyVal.bytes [0, 7, 14]])
    ∧ ∀ p ∈ (readN
        ([⟨⟨3, 4⟩, 1, 2, fun i => i + 1, fun _ => 0⟩,
          ⟨⟨-1, -1⟩, 5, 3, fun i => 7 * i, fun _ => 9⟩] : List Delivery).length
        (deliverAll ⟨[], 0, Option.none, false⟩
          [⟨⟨3, 4⟩, 1, 2, fun i => i + 1, fun _ => 0⟩,
           ⟨⟨-1, -1⟩, 5, 3, fun i => 7 * i, fun _ => 9⟩])).fst, p.valid = true := by
  have h := read_fifo_payloads ⟨[], 0, Option.none, false⟩
    [⟨⟨3, 4⟩, 1, 2, fun i => i + 1, fun _ => 0⟩,
     ⟨⟨-1, -1⟩, 5, 3, fun i => 7 * i, fun _ => 9⟩]
    rfl (by decide)
  exact ⟨by rw [h.1]; decide, h.2⟩

/-- C2: on a session whose `closed` property is true, `write()` always fails
with the state error `"Divert handle closed."`; since the `divert_reinject`
call appears only in the `ok` branch of `write`, the engine's reinject
operation is never invoked. -/
theorem write_closed_fails (reinject : PyVal → PyVal → Int) (s : SessionState)
    (packet_obj : Option Packet) (h : (closedCheck s).fst = true) :
    write reinject s packet_obj = Except.error "Divert handle closed." := by
  simp only [write, h, if_pos]

/-- Concrete instantiation of `write_closed_fails`: a session with no thread
and an empty queue rejects a write of a fully populated packet. -/
theorem write_closed_fails_witness :
    write (fun _ _ => 5) ⟨[], 0, Option.none, false⟩
        (some { ip_data := PyVal.bytes [1], sockaddr := PyVal.bytes [2] })
      = Except.error "Divert handle closed." :=
  write_closed_fails (fun _ _ => 5) ⟨[], 0, Option.none, false⟩
    (some { ip_data := PyVal.bytes [1], sockaddr := PyVal.bytes [2] })
    (by decide)

/-- C3 counterexample: on a live session with one pending reader, `close()`
performs exactly the sentinel push, the loop-stop request and the join — the
engine-level handle release (`divert_close`) is not among its actions, so
`close()` does not release the engine-level handle as the claim states. -/
theorem close_counterexample :
    (close ⟨[], 1, some ⟨true⟩, false⟩).snd
        = [Event.put_sentinel, Event.loop_stop, Event.thread_join]
    ∧ Event.divert_close ∉ (close ⟨[], 1, some ⟨true⟩, false⟩).snd := by
  decide

/-- C3 (amended): `close()` performs, in order, one sentinel push per pending
reader, then — when a background activity is present — a loop-stop request if
the activity is still alive followed by the join; `close()` itself never
releases the engine-level handle, and the destructor performs the close
actions followed by exactly one `divert_close` when the one-shot `_cleaned`
flag is not yet set. -/
theorem close_event_order (s : SessionState) :
    (close s).snd
        = List.replicate s.num_queued Event.put_sentinel
          ++ (match s.thread with
              | some t =>
                (if t.alive then [Event.loop_stop] else []) ++ [Event.thread_join]
              | Option.none => [])
    ∧ Event.divert_close ∉ (close s).snd
    ∧ (s.cleaned = false →
        (del_method s).snd = (close s).snd ++ [Event.divert_close]) := by
  refine ⟨?_, ?_, ?_⟩
  · unfold close
    cases h : s.thread with
    | none => simp
    | some t => simp
  · unfold close
    cases h : s.thread with
    | none =>
      simp only []
      intro hmem
      exact absurd (List.eq_of_mem_replicate hmem) (by decide)
    | some t =>
      simp only [List.mem_append]
      rintro ((hmem | hmem) | hmem)
      · exact absurd (List.eq_of_mem_replicate hmem) (by decide)
      · cases ht : t.alive <;> rw [ht] at hmem <;> simp at hmem
      · simp at hmem
  · intro hc
    have hcl : (close s).fst.cleaned = false := by
      unfold close
      cases h : s.thread with
      | none => simpa using hc
      | some t => simpa using hc
    unfold del_method
    simp [hcl]

/-- Concrete instantiation of `close_event_order`: a live session with one
pending reader and the `_cleaned` flag unset. -/
theorem close_event_order_witness :
    (close ⟨[Packet.mk PyVal.none PyVal.none PyVal.none true (PyVal.int 0)],
        1, some ⟨false⟩, false⟩).snd
        = [Event.put_sentinel, Event.thread_join]
    ∧ Event.divert_close
        ∉ (close ⟨[Packet.mk PyVal.none PyVal.none PyVal.none true (PyVal.int 0)],
            1, some ⟨false⟩, false⟩).snd
    ∧ (del_method ⟨[Packet.mk PyVal.none PyVal.none PyVal.none true (PyVal.int 0)],
            1, some ⟨false⟩, false⟩).snd
        = (close ⟨[Packet.mk PyVal.none PyVal.none PyVal.none true (PyVal.int 0)],
            1, some ⟨false⟩, false⟩).snd ++ [Event.divert_close] := by
  have h := close_event_order
    ⟨[Packet.mk PyVal.none PyVal.none PyVal.none true (PyVal.int 0)],
      1, some ⟨false⟩, false⟩
  exact ⟨by rw [h.1]; rfl, h.2.1, h.2.2 rfl⟩

/-- C4: on a session on which close has already completed — no pending
readers, no live background activity — calling `close()` again is a complete
no-op: it raises no error, changes no session state, and performs no action at
all (in particular it does not release the engine handle). -/
theorem close_idempotent (s : SessionState) (h1 : s.num_queued = 0)
    (h2 : s.thread = Option.none) :
    close s = (s, []) := by
  obtain ⟨q, n, th, c⟩ := s
  dsimp only at h1 h2
  subst h1
  subst h2
  simp [close]

/-- Concrete instantiation of `close_idempotent`: a fully closed session with
a leftover sentinel in the queue. -/
theorem close_idempotent_witness :
    close ⟨[Packet.mk PyVal.none PyVal.none PyVal.none false (PyVal.int 0)],
        0, Option.none, true⟩
      = (⟨[Packet.mk PyVal.none PyVal.none PyVal.none false (PyVal.int 0)],
          0, Option.none, true⟩, []) :=
  close_idempotent _ rfl rfl

/-- C5: for a delivery whose header-reported lengths are both positive, the
callback enqueues a packet whose `ip_data` is a private copy of exactly
`packet_length` bytes of the engine buffer, and the packet is `valid`. -/
theorem callback_copies_total_length (s : SessionState) (d : Delivery)
    (h1 : d.packet_length > 0) (h2 : d.header_len > 0) :
    (ip_callback s d).packet_queue = s.packet_queue ++ [callbackPacket d]
    ∧ (callbackPacket d).ip_data
        = PyVal.bytes (sliceBuf d.ip_data d.packet_length.toNat)
    ∧ ((sliceBuf d.ip_data d.packet_length.toNat).length : Int) = d.packet_length
    ∧ (callbackPacket d).valid = true := by
  refine ⟨?_, rfl, ?_, rfl⟩
  · rw [ip_callback_valid s d h1 h2]
  · simp [sliceBuf]
    exact le_of_lt h1

/-- Concrete instantiation of `callback_copies_total_length`: the spec
scenario with `totalLength = 40` and `headerLength = 20`, yielding a valid
packet with a 40-byte payload. -/
theorem callback_copies_total_length_witness :
    (ip_callback ⟨[], 0, some ⟨true⟩, false⟩
        ⟨⟨-1, -1⟩, 20, 40, fun i => i % 256, fun _ => 0⟩).packet_queue
        = [] ++ [callbackPacket ⟨⟨-1, -1⟩, 20, 40, fun i => i % 256, fun _ => 0⟩]
    ∧ ((sliceBuf (fun i => i % 256) (40 : Int).toNat).length : Int) = 40
    ∧ (callbackPacket ⟨⟨-1, -1⟩, 20, 40, fun i => i % 256, fun _ => 0⟩).valid
        = true := by
  have h := callback_copies_total_length ⟨[], 0, some ⟨true⟩, false⟩
    ⟨⟨-1, -1⟩, 20, 40, fun i => i % 256, fun _ => 0⟩ (by decide) (by decide)
  exact ⟨h.1, h.2.2.1, h.2.2.2⟩

/-- C6: on a non-closed session, `write()` with a packet missing its payload
or its address token fails with the reinject error `"Invalid packet data."`
without reaching the engine, while `write()` with both present (truthy)
invokes the engine's reinject operation on the payload and address token and
returns the byte count the engine reports. -/
theorem write_validation (reinject : PyVal → PyVal → Int) (s : SessionState)
    (p : Packet) (hopen : (closedCheck s).fst = false) :
    ((p.ip_data = PyVal.none ∨ p.sockaddr = PyVal.none) →
      write reinject s (some p) = Except.error "Invalid packet data.")
    ∧ (p.ip_data.truthy = true → p.sockaddr.truthy = true →
      write reinject s (some p)
        = Except.ok (reinject p.ip_data p.sockaddr, (closedCheck s).snd,
            [Event.divert_reinject p.ip_data p.sockaddr])) := by
  constructor
  · intro h
    rcases h with h | h <;> simp [write, hopen, h, PyVal.truthy]
  · intro h1 h2
    simp [write, hopen, h1, h2]

/-- Concrete instantiation of `write_validation`: on a session with a live
thread, a packet lacking its payload is rejected, and a fully populated
packet is reinjected with the engine-reported byte count returned. -/
theorem write_validation_witness :
    write (fun _ _ => 42) ⟨[], 0, some ⟨true⟩, false⟩
        (some { sockaddr := PyVal.bytes [9] })
      = Except.error "Invalid packet data."
    ∧ write (fun _ _ => 42) ⟨[], 0, some ⟨true⟩, false⟩
        (some { ip_data := PyVal.bytes [1, 2], sockaddr := PyVal.bytes [9] })
      = Except.ok (42, (closedCheck ⟨[], 0, some ⟨true⟩, false⟩).snd,
          [Event.divert_reinject (PyVal.bytes [1, 2]) (PyVal.bytes [9])]) := by
  constructor
  · exact (write_validation (fun _ _ => 42) ⟨[], 0, some ⟨true⟩, false⟩
      { sockaddr := PyVal.bytes [9] } (by decide)).1 (Or.inl rfl)
  · exact (write_validation (fun _ _ => 42) ⟨[], 0, some ⟨true⟩, false⟩
      { ip_data := PyVal.bytes [1, 2], sockaddr := PyVal.bytes [9] }
      (by decide)).2 rfl rfl

/-- C7: the claimed all-or-nothing compile contract is unreachable in the
program: the argument-type table declares five parameters for the engine's
`ipfw_compile_rule` while the call passes four, so every call — whatever the
engine would report, for every rule text and port — raises `TypeError` at the
ctypes boundary before the engine is invoked; neither a blob nor an error
carrying the engine's diagnostic is ever produced. -/
theorem compile_always_typeerror (engine : String → Nat → CompileOutcome)
    (rule_str : String) (port : Nat) :
    ipfw_compile_rule engine rule_str port
      = Except.error "TypeError: this function takes at least 5 arguments (4 given)"
    ∧ (∀ blob : List Nat,
        ipfw_compile_rule engine rule_str port ≠ Except.ok blob)
    ∧ (∀ engine2 : String → Nat → CompileOutcome,
        ipfw_compile_rule engine rule_str port
          = ipfw_compile_rule engine2 rule_str port) := by
  refine ⟨rfl, ?_, fun engine2 => rfl⟩
  intro blob h
  rw [show ipfw_compile_rule engine rule_str port
      = Except.error
          "TypeError: this function takes at least 5 arguments (4 given)"
    from rfl] at h
  simp at h

/-- C8: on a delivery passing the positive-length check, the enqueued packet
carries no process info exactly when the engine reports the `-1` sentinel in
both `pid` and `epid`; otherwise it carries a copy of the engine-provided
process info. -/
theorem callback_proc_info (s : SessionState) (d : Delivery)
    (h1 : d.packet_length > 0) (h2 : d.header_len > 0) :
    (ip_callback s d).packet_queue = s.packet_queue ++ [callbackPacket d]
    ∧ ((callbackPacket d).proc = PyVal.none
        ↔ d.proc_info.pid = -1 ∧ d.proc_info.epid = -1)
    ∧ (¬(d.proc_info.pid = -1 ∧ d.proc_info.epid = -1) →
        (callbackPacket d).proc = PyVal.proc d.proc_info) := by
  refine ⟨ip_callback_valid s d h1 h2 ▸ rfl, ?_, ?_⟩
  · by_cases hp : d.proc_info.pid ≠ -1 ∨ d.proc_info.epid ≠ -1
    · simp only [callbackPacket, if_pos hp]
      constructor
      · intro h
        exact absurd h (by simp)
      · intro h
        rcases hp with hp | hp <;> exact absurd (by simp [h.1, h.2]) hp
    · push_neg at hp
      simp [callbackPacket, hp.1, hp.2]
  · intro h
    have hp : d.proc_info.pid ≠ -1 ∨ d.proc_info.epid ≠ -1 := by
      by_contra hc
      push_neg at hc
      exact h ⟨hc.1, hc.2⟩
    simp only [callbackPacket, if_pos hp]

/-- Concrete instantiation of `callback_proc_info`: a delivery whose engine
reports `pid = 5, epid = -1` carries a copy of that process info. -/
theorem callback_proc_info_witness :
    (ip_callback ⟨[], 0, some ⟨true⟩, false⟩
        ⟨⟨5, -1⟩, 20, 2, fun _ => 1, fun _ => 0⟩).packet_queue
        = [] ++ [callbackPacket ⟨⟨5, -1⟩, 20, 2, fun _ => 1, fun _ => 0⟩]
    ∧ (callbackPacket ⟨⟨5, -1⟩, 20, 2, fun _ => 1, fun _ => 0⟩).proc
        = PyVal.proc ⟨5, -1⟩ := by
  have h := callback_proc_info ⟨[], 0, some ⟨true⟩, false⟩
    ⟨⟨5, -1⟩, 20, 2, fun _ => 1, fun _ => 0⟩ (by decide) (by decide)
  exact ⟨h.1, h.2.2 (by decide)⟩

/-- The number of shutdown sentinels `close` pushes is exactly the value of
the pending-reader counter at the time of the call. -/
lemma close_sentinel_count (s : SessionState) :
    (close s).snd.count Event.put_sentinel = s.num_queued := by
  unfold close
  cases h : s.thread with
  | none => simp
  | some t =>
    cases ht : t.alive <;>
      simp [ht, List.count_append, List.count_replicate, List.count_singleton]

/-- C9: a `read()` whose dequeue raises (empty queue under a non-blocking or
timeout policy) leaves the pending-reader counter permanently incremented, so
a later `close()` pushes one more sentinel than it would have before the
failed read. -/
theorem read_failure_leaks_counter (s : SessionState)
    (hq : s.packet_queue = []) :
    (read s).fst = Option.none
    ∧ (read s).snd.num_queued = s.num_queued + 1
    ∧ (close (read s).snd).snd.count Event.put_sentinel
        = (close s).snd.count Event.put_sentinel + 1 := by
  have hread : read s = (Option.none, { s with num_queued := s.num_queued + 1 }) := by
    simp [read, hq]
  refine ⟨by rw [hread], by rw [hread], ?_⟩
  rw [hread, close_sentinel_count, close_sentinel_count]

/-- Concrete instantiation of `read_failure_leaks_counter`: a failed read on
an idle session makes the next close push one sentinel instead of none. -/
theorem read_failure_leaks_counter_witness :
    (read ⟨[], 0, some ⟨true⟩, false⟩).fst = Option.none
    ∧ (read ⟨[], 0, some ⟨true⟩, false⟩).snd.num_queued = 0 + 1
    ∧ (close (read ⟨[], 0, some ⟨true⟩, false⟩).snd).snd.count Event.put_sentinel
        = (close ⟨[], 0, some ⟨true⟩, false⟩).snd.count Event.put_sentinel + 1 :=
  read_failure_leaks_counter ⟨[], 0, some ⟨true⟩, false⟩ rfl

/-- C10: item access on `Packet` is asymmetric: for a key outside the four
known ones, `__setitem__` raises a `KeyError` while `__getitem__` silently
returns `None`; for each of the four known keys, a get after a set returns
the value just stored. -/
theorem item_access_asymmetry (p : Packet) (key : String) (v : PyVal) :
    (key ∉ ["proc", "ip_data", "sockaddr", "flag"] →
      Packet.setitem p key v = Except.error ("No suck key: " ++ key)
      ∧ Packet.getitem p key = PyVal.none)
    ∧ (key ∈ ["proc", "ip_data", "sockaddr", "flag"] →
      ∃ q, Packet.setitem p key v = Except.ok q ∧ Packet.getitem q key = v) := by
  constructor
  · intro h
    simp only [List.mem_cons, List.mem_singleton, not_or] at h
    obtain ⟨h1, h2, h3, h4, _⟩ := h
    constructor
    · simp [Packet.setitem, h1, h2, h3, h4]
    · simp [Packet.getitem, h1, h2, h3, h4]
  · intro h
    simp only [List.mem_cons, List.mem_singleton] at h
    rcases h with h | h | h | h | h
    · exact ⟨{ p with proc := v }, by simp [Packet.setitem, h],
        by simp [Packet.getitem, h]⟩
    · exact ⟨{ p with ip_data := v }, by simp [Packet.setitem, h],
        by simp [Packet.getitem, h]⟩
    · exact ⟨{ p with sockaddr := v }, by simp [Packet.setitem, h],
        by simp [Packet.getitem, h]⟩
    · exact ⟨{ p with flag := v }, by simp [Packet.setitem, h],
        by simp [Packet.getitem, h]⟩
    · exact absurd h (by simp)

/-- Concrete instantiation of `item_access_asymmetry`: the unknown key
`"valid"` is rejected by set but silently absent on get, and setting the
known key `"flag"` is observed by a subsequent get. -/
theorem item_access_asymmetry_witness :
    (Packet.setitem { } "valid" (PyVal.int 3)
        = Except.error ("No suck key: " ++ "valid")
      ∧ Packet.getitem { } "valid" = PyVal.none)
    ∧ ∃ q, Packet.setitem { } "flag" (PyVal.int 3) = Except.ok q
        ∧ Packet.getitem q "flag" = PyVal.int 3 := by
  constructor
  · exact (item_access_asymmetry { } "valid" (PyVal.int 3)).1 (by decide)
  · exact (item_access_asymmetry { } "flag" (PyVal.int 3)).2 (by decide)

end MacDivert
